import Mathlib

/-!
Verification of the `is-svg` crate (`src/lib.rs`).

The crate exposes three predicates over a byte buffer: `is_svg`, `is_svg_string`
and `is_svgz`.  All structural SVG validation is delegated to the external
`usvg` crate through `Tree::from_data(data, &opt)`, whose `Result` outcome the
crate consumes only through `is_ok()`.  Since `usvg` is an external dependency
(not part of this repository), the builder call is modelled as an abstract
function `from_data : List Byte → O → Except E T`, where `T` stands for
`usvg::Tree`, `E` for `usvg::Error` and `O` for `usvg::Options`; the value
`options_default : O` stands for `Options::default()`.  Every theorem below is
proved for an arbitrary builder, except where a claim explicitly assumes a
documented behaviour of the builder (failure on empty input), which then
appears as a hypothesis.

Bytes (Rust `u8`) are modelled as natural numbers; a buffer (`&[u8]`) is a
`List` of bytes.  The public functions take `impl AsRef<[u8]>`; this genericity
is modelled by the type `ByteSource`, covering the two instantiations the crate
exercises (byte slices and strings, a string contributing its UTF-8 encoding),
with `ByteSource.as_ref` playing the role of `data.as_ref()`.
-/

namespace IsSvg

/-- A byte (Rust `u8`); all values that occur are below 256. -/
abbrev Byte := Nat

/-- Magic number of gzip defined in RFC 1952
(`const GZIP_MAGIC_NUMBER: [u8; 2] = [0x1f, 0x8b];`, src/lib.rs line 42). -/
def GZIP_MAGIC_NUMBER : List Byte := [0x1f, 0x8b]

/-- Embedding of Rust `<[u8]>::starts_with(needle)`: `true` iff `needle` is a
leading segment of the buffer.  A buffer shorter than the needle yields
`false`; an empty needle yields `true`. -/
def starts_with : List Byte → List Byte → Bool
  | _, [] => true
  | [], _ :: _ => false
  | d :: ds, n :: ns => d == n && starts_with ds ns

/-- An argument of the public functions, which take `impl AsRef<[u8]>`: either
a byte buffer or a string. -/
inductive ByteSource where
  | bytes (b : List Byte)
  | str (s : String)

/-- Rust `data.as_ref()`: the underlying byte sequence of an argument.  A
string contributes the UTF-8 encoding of its characters. -/
def ByteSource.as_ref : ByteSource → List Byte
  | .bytes b => b
  | .str s => (s.data.flatMap String.utf8EncodeChar).map (fun b => b.toNat)

/-- Rust `Result::is_ok()` on the builder's outcome. -/
def is_ok {E T : Type} : Except E T → Bool
  | .ok _ => true
  | .error _ => false

/-- Embedding of `pub fn is_svg(data: impl AsRef<[u8]>) -> bool`
(src/lib.rs lines 65-71): delegate the whole buffer to the external builder
with default options and collapse its `Result` to a boolean via `is_ok`. -/
def is_svg {T E O : Type} (from_data : List Byte → O → Except E T)
    (options_default : O) (data : ByteSource) : Bool :=
  let inner := fun (d : List Byte) =>
    let opt := options_default
    is_ok (from_data d opt)
  inner data.as_ref

/-- Embedding of `pub fn is_svg_string(data: impl AsRef<[u8]>) -> bool`
(src/lib.rs lines 96-99):
`is_svg(data) && !data.starts_with(&GZIP_MAGIC_NUMBER)`. -/
def is_svg_string {T E O : Type} (from_data : List Byte → O → Except E T)
    (options_default : O) (data : ByteSource) : Bool :=
  let inner := fun (d : List Byte) =>
    is_svg from_data options_default (.bytes d) && !(starts_with d GZIP_MAGIC_NUMBER)
  inner data.as_ref

/-- Embedding of `pub fn is_svgz(data: impl AsRef<[u8]>) -> bool`
(src/lib.rs lines 124-127):
`is_svg(data) && data.starts_with(&GZIP_MAGIC_NUMBER)`. -/
def is_svgz {T E O : Type} (from_data : List Byte → O → Except E T)
    (options_default : O) (data : ByteSource) : Bool :=
  let inner := fun (d : List Byte) =>
    is_svg from_data options_default (.bytes d) && starts_with d GZIP_MAGIC_NUMBER
  inner data.as_ref

/-- Spec-side reading of "`d` starts with the two-byte gzip signature
`0x1F 0x8B`": the buffer has at least two bytes and they are `0x1f` and
`0x8b`.  Written from the spec's words, to be compared with the code's
`starts_with d GZIP_MAGIC_NUMBER`. -/
def startsWithGzipSig : List Byte → Bool
  | a :: b :: _ => a == 0x1f && b == 0x8b
  | _ => false

/-- The code's prefix test against `GZIP_MAGIC_NUMBER` agrees with the
spec-side two-byte signature check on every buffer. -/
theorem starts_with_gzip_eq_sig (d : List Byte) :
    starts_with d GZIP_MAGIC_NUMBER = startsWithGzipSig d := by
  match d with
  | [] => rfl
  | [a] => simp [starts_with, GZIP_MAGIC_NUMBER, startsWithGzipSig]
  | a :: b :: rest => simp [starts_with, GZIP_MAGIC_NUMBER, startsWithGzipSig]

/-- C1: for every byte sequence `d` and every builder, `is_svg_string d` and
`is_svgz d` are never both true, and `is_svg d` equals their exclusive or, so
exactly one of the two holds precisely when `is_svg d` is true. -/
theorem is_svg_string_is_svgz_mutually_exclusive {T E O : Type}
    (from_data : List Byte → O → Except E T) (options_default : O) (d : List Byte) :
    (is_svg_string from_data options_default (.bytes d) &&
      is_svgz from_data options_default (.bytes d)) = false ∧
    is_svg from_data options_default (.bytes d) =
      ((is_svg_string from_data options_default (.bytes d)).xor
        (is_svgz from_data options_default (.bytes d))) := by
  constructor <;>
  · simp only [is_svg, is_svg_string, is_svgz, ByteSource.as_ref]
    cases is_ok (from_data d options_default) <;>
      cases starts_with d GZIP_MAGIC_NUMBER <;> simp

/-- C2: for every byte sequence `d` and every builder, `is_svg d` equals the
boolean disjunction `is_svg_string d || is_svgz d`. -/
theorem is_svg_eq_is_svg_string_or_is_svgz {T E O : Type}
    (from_data : List Byte → O → Except E T) (options_default : O) (d : List Byte) :
    is_svg from_data options_default (.bytes d) =
      (is_svg_string from_data options_default (.bytes d) ||
        is_svgz from_data options_default (.bytes d)) := by
  simp only [is_svg, is_svg_string, is_svgz, ByteSource.as_ref]
  cases is_ok (from_data d options_default) <;>
    cases starts_with d GZIP_MAGIC_NUMBER <;> simp

/-- C3: for every byte sequence `d` and every builder, `is_svg_string d`
equals `is_svg d && !(d starts with 0x1F 0x8B)`, the prefix test taken in the
spec's two-byte reading. -/
theorem is_svg_string_eq_spec_def {T E O : Type}
    (from_data : List Byte → O → Except E T) (options_default : O) (d : List Byte) :
    is_svg_string from_data options_default (.bytes d) =
      (is_svg from_data options_default (.bytes d) && !(startsWithGzipSig d)) := by
  simp only [is_svg_string, is_svg, ByteSource.as_ref, starts_with_gzip_eq_sig]

/-- C4: for every byte sequence `d` and every builder, `is_svgz d` equals
`is_svg d && (d starts with 0x1F 0x8B)`, the prefix test taken in the spec's
two-byte reading. -/
theorem is_svgz_eq_spec_def {T E O : Type}
    (from_data : List Byte → O → Except E T) (options_default : O) (d : List Byte) :
    is_svgz from_data options_default (.bytes d) =
      (is_svg from_data options_default (.bytes d) && startsWithGzipSig d) := by
  simp only [is_svgz, is_svg, ByteSource.as_ref, starts_with_gzip_eq_sig]

/-- C5: for every byte sequence `d`, `is_svg d` is exactly `is_ok` of the
builder's outcome on `d` with default options, and it is true iff the builder
returns some tree; every builder failure therefore collapses to `false` and no
error value reaches the caller. -/
theorem is_svg_iff_builder_ok {T E O : Type}
    (from_data : List Byte → O → Except E T) (options_default : O) (d : List Byte) :
    is_svg from_data options_default (.bytes d) = is_ok (from_data d options_default) ∧
    (is_svg from_data options_default (.bytes d) = true ↔
      ∃ t, from_data d options_default = Except.ok t) := by
  refine ⟨rfl, ?_⟩
  simp only [is_svg, ByteSource.as_ref]
  cases h : from_data d options_default <;> simp [is_ok, h]

/-- C6: for every byte sequence of length 0 or 1 and every builder, `is_svgz`
is false: such a buffer cannot start with the two-byte gzip signature. -/
theorem is_svgz_of_short_buffer_false {T E O : Type}
    (from_data : List Byte → O → Except E T) (options_default : O) (d : List Byte)
    (h : d.length < 2) :
    is_svgz from_data options_default (.bytes d) = false := by
  match d with
  | [] => simp [is_svgz, ByteSource.as_ref, starts_with, GZIP_MAGIC_NUMBER]
  | [a] => simp [is_svgz, ByteSource.as_ref, starts_with, GZIP_MAGIC_NUMBER]
  | a :: b :: rest => simp at h; omega

/-- Witness for C6: the one-byte buffer `[0x1f]` is not svgz even under an
always-succeeding builder. -/
theorem is_svgz_of_short_buffer_false_witness :
    ([0x1f] : List Byte).length < 2 ∧
    is_svgz (fun (_ : List Byte) (_ : Unit) => (Except.ok () : Except Unit Unit)) ()
      (.bytes [0x1f]) = false :=
  ⟨by decide,
    is_svgz_of_short_buffer_false
      (fun (_ : List Byte) (_ : Unit) => (Except.ok () : Except Unit Unit)) ()
      [0x1f] (by decide)⟩

/-- C7: when the builder fails on the empty buffer (its documented behaviour),
all three predicates return false on the empty byte sequence. -/
theorem empty_input_all_predicates_false {T E O : Type}
    (from_data : List Byte → O → Except E T) (options_default : O)
    (h : is_ok (from_data ([] : List Byte) options_default) = false) :
    is_svg from_data options_default (.bytes []) = false ∧
    is_svg_string from_data options_default (.bytes []) = false ∧
    is_svgz from_data options_default (.bytes []) = false := by
  refine ⟨?_, ?_, ?_⟩ <;>
    simp [is_svg, is_svg_string, is_svgz, ByteSource.as_ref, h]

/-- Witness for C7: a builder that always fails does fail on the empty buffer,
and all three predicates are false there. -/
theorem empty_input_all_predicates_false_witness :
    is_ok ((fun (_ : List Byte) (_ : Unit) => (Except.error () : Except Unit Unit))
      ([] : List Byte) ()) = false ∧
    (is_svg (fun (_ : List Byte) (_ : Unit) => (Except.error () : Except Unit Unit)) ()
      (.bytes []) = false ∧
    is_svg_string (fun (_ : List Byte) (_ : Unit) => (Except.error () : Except Unit Unit)) ()
      (.bytes []) = false ∧
    is_svgz (fun (_ : List Byte) (_ : Unit) => (Except.error () : Except Unit Unit)) ()
      (.bytes []) = false) :=
  ⟨by decide,
    empty_input_all_predicates_false
      (fun (_ : List Byte) (_ : Unit) => (Except.error () : Except Unit Unit)) ()
      (by decide)⟩

/-- C8: each predicate is deterministic: in any two sequences of calls, two
calls carrying the same argument return the same boolean, wherever and in
whatever order they occur; no call reads or writes hidden state (the
embedding of each function is a pure function of its argument alone). -/
theorem predicates_deterministic {T E O : Type}
    (from_data : List Byte → O → Except E T) (options_default : O)
    (calls₁ calls₂ : List ByteSource) (i j : Nat)
    (h : calls₁[i]? = calls₂[j]?) :
    (calls₁.map (is_svg from_data options_default))[i]? =
      (calls₂.map (is_svg from_data options_default))[j]? ∧
    (calls₁.map (is_svg_string from_data options_default))[i]? =
      (calls₂.map (is_svg_string from_data options_default))[j]? ∧
    (calls₁.map (is_svgz from_data options_default))[i]? =
      (calls₂.map (is_svgz from_data options_default))[j]? := by
  refine ⟨?_, ?_, ?_⟩ <;> simp [List.getElem?_map, h]

/-- Witness for C8: two one-call traces with the same argument agree. -/
theorem predicates_deterministic_witness :
    ([ByteSource.bytes []] : List ByteSource)[0]? =
      ([ByteSource.bytes []] : List ByteSource)[0]? ∧
    (([ByteSource.bytes []].map
        (is_svg (fun (_ : List Byte) (_ : Unit) => (Except.error () : Except Unit Unit)) ()))[0]? =
      ([ByteSource.bytes []].map
        (is_svg (fun (_ : List Byte) (_ : Unit) => (Except.error () : Except Unit Unit)) ()))[0]? ∧
    ([ByteSource.bytes []].map
        (is_svg_string (fun (_ : List Byte) (_ : Unit) => (Except.error () : Except Unit Unit)) ()))[0]? =
      ([ByteSource.bytes []].map
        (is_svg_string (fun (_ : List Byte) (_ : Unit) => (Except.error () : Except Unit Unit)) ()))[0]? ∧
    ([ByteSource.bytes []].map
        (is_svgz (fun (_ : List Byte) (_ : Unit) => (Except.error () : Except Unit Unit)) ()))[0]? =
      ([ByteSource.bytes []].map
        (is_svgz (fun (_ : List Byte) (_ : Unit) => (Except.error () : Except Unit Unit)) ()))[0]?) :=
  ⟨rfl,
    predicates_deterministic
      (fun (_ : List Byte) (_ : Unit) => (Except.error () : Except Unit Unit)) ()
      [ByteSource.bytes []] [ByteSource.bytes []] 0 0 rfl⟩

/-- C9: the result of each predicate depends only on the underlying byte
sequence of its argument: two arguments with equal `as_ref` views (for example
a string and its UTF-8 byte encoding) receive the same boolean from each of
the three predicates. -/
theorem result_depends_only_on_as_ref {T E O : Type}
    (from_data : List Byte → O → Except E T) (options_default : O)
    (s₁ s₂ : ByteSource) (h : s₁.as_ref = s₂.as_ref) :
    is_svg from_data options_default s₁ = is_svg from_data options_default s₂ ∧
    is_svg_string from_data options_default s₁ = is_svg_string from_data options_default s₂ ∧
    is_svgz from_data options_default s₁ = is_svgz from_data options_default s₂ := by
  refine ⟨?_, ?_, ?_⟩ <;> simp only [is_svg, is_svg_string, is_svgz, h]

/-- Witness for C9: the string "a" and the byte buffer `[0x61]` have the same
byte view and classify identically. -/
theorem result_depends_only_on_as_ref_witness :
    (ByteSource.str ("a")).as_ref = (ByteSource.bytes [0x61]).as_ref ∧
    (is_svg (fun (_ : List Byte) (_ : Unit) => (Except.ok () : Except Unit Unit)) ()
        (ByteSource.str ("a")) =
      is_svg (fun (_ : List Byte) (_ : Unit) => (Except.ok () : Except Unit Unit)) ()
        (ByteSource.bytes [0x61]) ∧
    is_svg_string (fun (_ : List Byte) (_ : Unit) => (Except.ok () : Except Unit Unit)) ()
        (ByteSource.str ("a")) =
      is_svg_string (fun (_ : List Byte) (_ : Unit) => (Except.ok () : Except Unit Unit)) ()
        (ByteSource.bytes [0x61]) ∧
    is_svgz (fun (_ : List Byte) (_ : Unit) => (Except.ok () : Except Unit Unit)) ()
        (ByteSource.str ("a")) =
      is_svgz (fun (_ : List Byte) (_ : Unit) => (Except.ok () : Except Unit Unit)) ()
        (ByteSource.bytes [0x61])) :=
  ⟨by decide,
    result_depends_only_on_as_ref
      (fun (_ : List Byte) (_ : Unit) => (Except.ok () : Except Unit Unit)) ()
      (ByteSource.str ("a")) (ByteSource.bytes [0x61]) (by decide)⟩

/-- C10: for every byte sequence starting with `0x1f 0x8b` and every builder,
`is_svg_string` is false unconditionally: the prefix test alone forces the
result, whatever the builder does. -/
theorem gzip_prefixed_is_svg_string_false {T E O : Type}
    (from_data : List Byte → O → Except E T) (options_default : O) (d : List Byte)
    (h : starts_with d GZIP_MAGIC_NUMBER = true) :
    is_svg_string from_data options_default (.bytes d) = false := by
  simp [is_svg_string, ByteSource.as_ref, h]

/-- Witness for C10: the bare two-byte gzip signature is rejected by
`is_svg_string` even under an always-succeeding builder. -/
theorem gzip_prefixed_is_svg_string_false_witness :
    starts_with [0x1f, 0x8b] GZIP_MAGIC_NUMBER = true ∧
    is_svg_string (fun (_ : List Byte) (_ : Unit) => (Except.ok () : Except Unit Unit)) ()
      (.bytes [0x1f, 0x8b]) = false :=
  ⟨by decide,
    gzip_prefixed_is_svg_string_false
      (fun (_ : List Byte) (_ : Unit) => (Except.ok () : Except Unit Unit)) ()
      [0x1f, 0x8b] (by decide)⟩

end IsSvg
